import Mathlib

/-!
Verification of the inventory and order consistency engine of an
e-commerce backend (Sequelize models: Categoria, Subcategoria, Producto,
Carrito, Pedido, DetallePedido), shallowly embedded in Lean.

Conventions of the embedding:
* `DECIMAL(10,2)` columns are modelled as `Rat`, `INTEGER` columns as
  `Int` (JS numbers carry sign), ids as `Nat`, `DATE` columns as
  `Option Nat` timestamps.
* A thrown JS `Error` is the `Except.error` of the message string.
* `save()` persistence is explicit state passing: each operation returns
  the persisted rows next to its `Except` outcome.
* The relational store's transaction-with-rollback (provided by the
  persistence collaborator) is `runTx`-style wrappers: an action that
  throws leaves the state exactly as it was.
-/

/-- Row of the `productos` table (`Producto` model). -/
structure Producto where
  id : Nat
  nombre : String
  precio : Rat
  stock : Int
  imagen : Option String
  subcategoriaId : Nat
  categoriaId : Nat
  activo : Bool
deriving DecidableEq, Repr

/-- Row of the `categorias` table (`Categoria` model). -/
structure Categoria where
  id : Nat
  nombre : String
  activo : Bool
deriving DecidableEq, Repr

/-- Row of the `subcategorias` table (`Subcategoria` model). -/
structure Subcategoria where
  id : Nat
  categoriaId : Nat
  nombre : String
  activo : Bool
deriving DecidableEq, Repr

/-- Row of the `carritos` table (`Carrito` model): one cart line. -/
structure Carrito where
  id : Nat
  usuarioId : Nat
  productoId : Nat
  cantidad : Int
  precioUnitario : Rat
deriving DecidableEq, Repr

/-- Row of the `detalle_pedidos` table (`DetallePedido` model): one order line. -/
structure DetallePedido where
  pedidoId : Nat
  productoId : Nat
  cantidad : Int
  precioUnitario : Rat
deriving DecidableEq, Repr

/-- Row of the `pedidos` table (`Pedido` model). -/
structure Pedido where
  id : Nat
  usuarioId : Nat
  total : Rat
  estado : String
  direccionEnvio : String
  telefono : String
  notas : Option String
  fechaPago : Option Nat
  fechaEnvio : Option Nat
  fechaEntrega : Option Nat
deriving DecidableEq, Repr

deriving instance DecidableEq for Except

/-- The `estadosValidos` list of `Pedido.prototype.cambiarEstado`, identical
to the `ENUM`/`isIn` values of the `estado` column: four states, with no
`entregado` (delivered) value. -/
def estadosValidos : List String := ["pendiente", "pagado", "enviado", "cancelado"]

/-- The `beforeUpdate` hook of `Pedido`: when `estado` changed, stamps
`fechaPago` on `pagado`, `fechaEnvio` on `enviado`, `fechaEntrega` on
`entregado`.  `changed` is Sequelize's `pedido.changed('estado')`, `now`
the clock value of `new Date()`. -/
def pedidoBeforeUpdate (changed : Bool) (now : Nat) (p : Pedido) : Pedido :=
  let p1 := if changed && (p.estado == "pagado") then { p with fechaPago := some now } else p
  let p2 := if changed && (p1.estado == "enviado") then { p1 with fechaEnvio := some now } else p1
  if changed && (p2.estado == "entregado") then { p2 with fechaEntrega := some now } else p2

/-- `Pedido.prototype.cambiarEstado(nuevoEstado)`: rejects a value outside
`estadosValidos`, otherwise assigns `estado` and saves (running the
`beforeUpdate` hook).  No transition check against the current state. -/
def cambiarEstado (now : Nat) (p : Pedido) (nuevoEstado : String) : Except String Pedido :=
  if estadosValidos.contains nuevoEstado then
    Except.ok (pedidoBeforeUpdate (p.estado != nuevoEstado) now { p with estado := nuevoEstado })
  else
    Except.error "Estado no valido, debe ser pendiente, pagado, enviado o cancelado"

/-- `Pedido.prototype.puedeSerCancelado()`. -/
def puedeSerCancelado (p : Pedido) : Bool :=
  ["pendiente", "pagado"].contains p.estado

/-- `Producto.prototype.hayStock(cantidad)` as written in the source: it
assigns `this.stock += cantidad` and returns `this.save()` — a Promise,
which as a JS condition is always truthy.  Returns the persisted product
next to the truthiness of the returned value. -/
def hayStock (p : Producto) (cantidad : Int) : Producto × Bool :=
  ({ p with stock := p.stock + cantidad }, true)

/-- `Producto.prototype.aumentarStock(cantidad)` as written in the source:
`if (this.hayStock(cantidad)) throw` — the Promise returned by `hayStock`
is truthy, so the throw always fires, after `hayStock` has already added
`cantidad` to the stock and initiated its save.  Returns the persisted
product next to the outcome. -/
def aumentarStock (p : Producto) (cantidad : Int) : Producto × Except String Producto :=
  let r := hayStock p cantidad
  if r.2 then
    (r.1, Except.error "Stock insuficiente")
  else
    let p2 := { r.1 with stock := r.1.stock - cantidad }
    (p2, Except.ok p2)

/-- `Producto.findByPk` over the in-memory `productos` table. -/
def findProducto (productos : List Producto) (pid : Nat) : Option Producto :=
  productos.find? (fun p => p.id == pid)

/-- Persisting a saved product row back into the table. -/
def saveProducto (productos : List Producto) (pid : Nat) (p' : Producto) : List Producto :=
  productos.map (fun q => if q.id == pid then p' else q)

/-- The `for (const detalle of detalles)` loop of `Pedido.prototype.cancelar`:
for each order line whose product exists, call `aumentarStock(cantidad)`;
its throw propagates, with the stock written by `hayStock` already saved
(`cancelar` opens no transaction). -/
def cancelarLoop (productos : List Producto) : List DetallePedido → List Producto × Except String Unit
  | [] => (productos, Except.ok ())
  | d :: rest =>
    match findProducto productos d.productoId with
    | none => cancelarLoop productos rest
    | some prod =>
      let r := aumentarStock prod d.cantidad
      let productos1 := saveProducto productos d.productoId r.1
      match r.2 with
      | Except.error e => (productos1, Except.error e)
      | Except.ok _ => cancelarLoop productos1 rest

/-- `Pedido.prototype.cancelar()`: gate on `puedeSerCancelado`, return the
stock of every order line's product, then set `estado = 'cancelado'` and
save.  Result: (persisted productos, persisted pedido, outcome). -/
def cancelar (productos : List Producto) (detalles : List DetallePedido) (p : Pedido)
    (now : Nat) : List Producto × Pedido × Except String Pedido :=
  if puedeSerCancelado p then
    let ds := detalles.filter (fun d => d.pedidoId == p.id)
    let r := cancelarLoop productos ds
    match r.2 with
    | Except.error e => (r.1, p, Except.error e)
    | Except.ok _ =>
      let p1 := pedidoBeforeUpdate (p.estado != "cancelado") now { p with estado := "cancelado" }
      (r.1, p1, Except.ok p1)
  else
    (productos, p, Except.error "No se puede cancelar este pedido")

/-- `findAll({ where: { usuarioId } })` over the `carritos` table
(`Carrito.obtenerCarritoUsuario` without the product join). -/
def carritoDeUsuario (carrito : List Carrito) (usuarioId : Nat) : List Carrito :=
  carrito.filter (fun l => l.usuarioId == usuarioId)

/-- `findAll({ where: { pedidoId } })` over the `detalle_pedidos` table. -/
def detallesDePedido (detalles : List DetallePedido) (pedidoId : Nat) : List DetallePedido :=
  detalles.filter (fun d => d.pedidoId == pedidoId)

/-- `Carrito.prototype.calcularSubtotal()`: `parseFloat(precioUnitario) * cantidad`. -/
def calcularSubtotal (item : Carrito) : Rat :=
  item.precioUnitario * (item.cantidad : Rat)

/-- Reading a JS variable that was never declared: the first read throws
`ReferenceError`. -/
def jsRead (v : Option Rat) : Except String Rat :=
  match v with
  | none => Except.error "ReferenceError: total is not defined"
  | some x => Except.ok x

/-- The accumulation loop of `Carrito.obtenerTotalCarrito`:
`total += item.calcularSubtotal()` reads `total` before writing it. -/
def totalLoop (v : Option Rat) : List Carrito → Except String (Option Rat)
  | [] => Except.ok v
  | item :: rest => do
    let t ← jsRead v
    totalLoop (some (t + calcularSubtotal item)) rest

/-- `Carrito.obtenerTotalCarrito(usuarioId)` as written in the source: the
variable `total` is never declared or initialised before the
`total += item.calcularSubtotal()` loop and the final `return total`. -/
def obtenerTotalCarrito (carrito : List Carrito) (usuarioId : Nat) : Except String Rat := do
  let items := carritoDeUsuario carrito usuarioId
  let v ← totalLoop none items
  jsRead v

/-- `Carrito.vaciarCarrito(usuarioId)`: `destroy({ where: { usuarioId } })`. -/
def vaciarCarrito (carrito : List Carrito) (usuarioId : Nat) : List Carrito :=
  carrito.filter (fun l => !(l.usuarioId == usuarioId))

/-- The catalog tables touched by a cascading deactivation. -/
structure CatalogState where
  categorias : List Categoria
  subcategorias : List Subcategoria
  productos : List Producto
deriving DecidableEq, Repr

/-- The product loop of the `Subcategoria` `afterUpdate` hook: deactivate
every product of subcategory `subId`.  `prodFalla` injects a store-level
rejection of a single row update (the `catch`/`throw error` path). -/
def hookDesactivarProductosDeSubcat (prodFalla : Nat → Bool) (subId : Nat) :
    List Producto → Except String (List Producto)
  | [] => Except.ok []
  | p :: rest =>
    if p.subcategoriaId == subId then
      if prodFalla p.id then
        Except.error "Error al desactivar subcategoria y productos relacionados"
      else
        match hookDesactivarProductosDeSubcat prodFalla subId rest with
        | Except.error e => Except.error e
        | Except.ok r => Except.ok ({ p with activo := false } :: r)
    else
      match hookDesactivarProductosDeSubcat prodFalla subId rest with
      | Except.error e => Except.error e
      | Except.ok r => Except.ok (p :: r)

/-- `subcategoria.update({ activo: false })` inside the `Categoria`
`afterUpdate` hook: the row update itself (which `subFalla` may reject)
followed by the `Subcategoria` `afterUpdate` hook, which cascades to the
subcategory's products only when `activo` actually changed. -/
def subcatUpdateDesactivar (subFalla prodFalla : Nat → Bool) (s : Subcategoria)
    (productos : List Producto) : Except String (Subcategoria × List Producto) :=
  if subFalla s.id then
    Except.error "Error al desactivar categoria y elementos relacionados"
  else
    if s.activo then
      match hookDesactivarProductosDeSubcat prodFalla s.id productos with
      | Except.error e => Except.error e
      | Except.ok ps => Except.ok ({ s with activo := false }, ps)
    else
      Except.ok ({ s with activo := false }, productos)

/-- Step 1 of the `Categoria` `afterUpdate` hook: the loop over
`Subcategoria.findAll({ where: { categoriaId } })`. -/
def cascadaSubcategorias (subFalla prodFalla : Nat → Bool) (catId : Nat) :
    List Subcategoria → List Producto → Except String (List Subcategoria × List Producto)
  | [], productos => Except.ok ([], productos)
  | s :: rest, productos =>
    if s.categoriaId == catId then
      match subcatUpdateDesactivar subFalla prodFalla s productos with
      | Except.error e => Except.error e
      | Except.ok (s', productos1) =>
        match cascadaSubcategorias subFalla prodFalla catId rest productos1 with
        | Except.error e => Except.error e
        | Except.ok r => Except.ok (s' :: r.1, r.2)
    else
      match cascadaSubcategorias subFalla prodFalla catId rest productos with
      | Except.error e => Except.error e
      | Except.ok r => Except.ok (s :: r.1, r.2)

/-- Step 2 of the `Categoria` `afterUpdate` hook: the loop over
`Producto.findAll({ where: { categoriaId } })`. -/
def cascadaProductosDeCategoria (prodFalla : Nat → Bool) (catId : Nat) :
    List Producto → Except String (List Producto)
  | [] => Except.ok []
  | p :: rest =>
    if p.categoriaId == catId then
      if prodFalla p.id then
        Except.error "Error al desactivar categoria y elementos relacionados"
      else
        match cascadaProductosDeCategoria prodFalla catId rest with
        | Except.error e => Except.error e
        | Except.ok r => Except.ok ({ p with activo := false } :: r)
    else
      match cascadaProductosDeCategoria prodFalla catId rest with
      | Except.error e => Except.error e
      | Except.ok r => Except.ok (p :: r)

/-- `Categoria.findByPk` over the in-memory `categorias` table. -/
def findCategoria (categorias : List Categoria) (catId : Nat) : Option Categoria :=
  categorias.find? (fun c => c.id == catId)

/-- Body of `deactivateCategory(id)`: `categoria.update({ activo: false })`
plus the `Categoria` `afterUpdate` hook, which fires only when `activo`
changed and rethrows any child failure. -/
def desactivarCategoriaBody (subFalla prodFalla : Nat → Bool) (st : CatalogState)
    (catId : Nat) : Except String CatalogState :=
  match findCategoria st.categorias catId with
  | none => Except.error "La categoria seleccionada no existe"
  | some c =>
    let categorias' := st.categorias.map
      (fun x => if x.id == catId then { x with activo := false } else x)
    if c.activo then
      match cascadaSubcategorias subFalla prodFalla catId st.subcategorias st.productos with
      | Except.error e => Except.error e
      | Except.ok (subs', prods1) =>
        match cascadaProductosDeCategoria prodFalla catId prods1 with
        | Except.error e => Except.error e
        | Except.ok prods2 => Except.ok ⟨categorias', subs', prods2⟩
    else
      Except.ok ⟨categorias', st.subcategorias, st.productos⟩

/-- `deactivateCategory(id)` run inside one store transaction: a thrown
error rolls every row back. -/
def desactivarCategoria (subFalla prodFalla : Nat → Bool) (st : CatalogState)
    (catId : Nat) : CatalogState × Except String Unit :=
  match desactivarCategoriaBody subFalla prodFalla st catId with
  | Except.ok st' => (st', Except.ok ())
  | Except.error e => (st, Except.error e)

/-- Decidable check: every subcategory of category `catId` is inactive. -/
def todasSubcatsInactivas (catId : Nat) (subs : List Subcategoria) : Bool :=
  subs.all (fun s => !(s.categoriaId == catId) || (s.activo == false))

/-- Decidable check: every product of category `catId` is inactive. -/
def todosProductosInactivos (catId : Nat) (productos : List Producto) : Bool :=
  productos.all (fun p => !(p.categoriaId == catId) || (p.activo == false))

/-- Decidable check: the category row `catId` is inactive. -/
def categoriaInactiva (catId : Nat) (categorias : List Categoria) : Bool :=
  categorias.all (fun c => !(c.id == catId) || (c.activo == false))

/-- `deleteFile(filename)` of `config/multer.js`: wraps everything in
`try`/`catch`, returning `true` when `fs.existsSync` sees the file and
`false` when it does not or when the file system throws (`fsError`).
It never propagates an exception. -/
def deleteFile (fsError : Bool) (existentes : List String) (filename : String) : Bool :=
  if fsError then
    false
  else if existentes.contains filename then
    true
  else
    false

/-- The `beforeDestroy` hook of `Producto`: when the product has an image,
invoke `deleteFile` and only log its boolean result.  Returns whether the
primitive was invoked, next to the hook's outcome. -/
def productoBeforeDestroy (fsError : Bool) (existentes : List String) (p : Producto) :
    Bool × Except String Unit :=
  match p.imagen with
  | none => (false, Except.ok ())
  | some img =>
    let _ := deleteFile fsError existentes img
    (true, Except.ok ())

/-- `Producto.destroy()` for one row: the `beforeDestroy` hook, then the
catalog record removal. -/
def destroyProducto (fsError : Bool) (existentes : List String) (productos : List Producto)
    (p : Producto) : Bool × Except String (List Producto) :=
  match productoBeforeDestroy fsError existentes p with
  | (invoked, Except.error e) => (invoked, Except.error e)
  | (invoked, Except.ok _) =>
    (invoked, Except.ok (productos.filter (fun q => !(q.id == p.id))))

/-- Modelled from the spec: `decreaseStock(productId, quantity)` — "fails
with `InsufficientStockError` if `quantity > stock`; otherwise atomically
sets `stock -= quantity`".  No `disminuirStock` method exists under
`src/`; it is required by the checkout path of the spec. -/
def disminuirStock (p : Producto) (cantidad : Int) : Except String Producto :=
  if p.stock < cantidad then
    Except.error "InsufficientStockError"
  else
    Except.ok { p with stock := p.stock - cantidad }

/-- All tables a checkout touches. -/
structure ShopState where
  productos : List Producto
  carrito : List Carrito
  pedidos : List Pedido
  detalles : List DetallePedido
deriving DecidableEq, Repr

/-- Total quantity the cart lines request of product `pid`. -/
def sumQty : List Carrito → Nat → Int
  | [], _ => 0
  | l :: rest, pid => (if l.productoId == pid then l.cantidad else 0) + sumQty rest pid

/-- Stock column of product `pid`, when the row exists. -/
def stockOf (productos : List Producto) (pid : Nat) : Option Int :=
  (findProducto productos pid).map (fun p => p.stock)

/-- Modelled from the spec: the per-line stock re-validation and decrement
of `checkout` — "for each line, re-validates stock (`hasStock`) and
decrements Product stock (`decreaseStock`) — any single insufficient-stock
failure aborts the entire checkout transaction". -/
def decrementarTodos (productos : List Producto) : List Carrito → Except String (List Producto)
  | [] => Except.ok productos
  | l :: rest =>
    match findProducto productos l.productoId with
    | none => Except.error "NotFoundError"
    | some p =>
      match disminuirStock p l.cantidad with
      | Except.error e => Except.error e
      | Except.ok p' => decrementarTodos (saveProducto productos l.productoId p') rest

/-- Modelled from the spec: `checkout(userId, shippingAddress,
contactPhone, notes?)` — reads the user's cart lines, fails with
`EmptyCartError` if none, decrements every product's stock, creates the
Order (`status = pending`, `total` from the lines) with one OrderLine per
cart line, and clears the cart (`Carrito.vaciarCarrito`, the one step
present under `src/`). -/
def checkoutBody (st : ShopState) (usuarioId newPedidoId : Nat) (dir tel : String)
    (notas : Option String) : Except String ShopState :=
  let lineas := carritoDeUsuario st.carrito usuarioId
  if lineas.isEmpty then
    Except.error "EmptyCartError"
  else
    match decrementarTodos st.productos lineas with
    | Except.error e => Except.error e
    | Except.ok ps' =>
      let total := (lineas.map calcularSubtotal).sum
      let pedido : Pedido :=
        ⟨newPedidoId, usuarioId, total, "pendiente", dir, tel, notas, none, none, none⟩
      let nuevosDetalles := lineas.map
        (fun l => DetallePedido.mk newPedidoId l.productoId l.cantidad l.precioUnitario)
      Except.ok ⟨ps', vaciarCarrito st.carrito usuarioId, pedido :: st.pedidos,
        nuevosDetalles ++ st.detalles⟩

/-- Modelled from the spec: checkout runs as one atomic transaction — a
failure rolls every table back. -/
def checkout (st : ShopState) (usuarioId newPedidoId : Nat) (dir tel : String)
    (notas : Option String) : ShopState × Except String Unit :=
  match checkoutBody st usuarioId newPedidoId dir tel notas with
  | Except.ok st' => (st', Except.ok ())
  | Except.error e => (st, Except.error e)

/-- An operation on one order's persisted row: either
`cambiarEstado(nuevoEstado)` or `cancelar()` (run against some state of
the `productos` and `detalle_pedidos` tables). -/
inductive PedidoOp where
  | cambiar (nuevoEstado : String) (now : Nat)
  | cancelarPedido (productos : List Producto) (detalles : List DetallePedido) (now : Nat)

/-- The persisted order row after one operation (a thrown error persists
nothing). -/
def aplicarOp (p : Pedido) : PedidoOp → Pedido
  | PedidoOp.cambiar nuevo now =>
    match cambiarEstado now p nuevo with
    | Except.ok p' => p'
    | Except.error _ => p
  | PedidoOp.cancelarPedido ps ds now => (cancelar ps ds p now).2.1

/-- The persisted order row after a sequence of operations. -/
def aplicarOps (p : Pedido) : List PedidoOp → Pedido
  | [] => p
  | op :: rest => aplicarOps (aplicarOp p op) rest

/-- From the spec, for comparison only: the allowed order-status
transition relation `pending→paid→shipped→delivered`,
`{pending,paid}→cancelled` of section 4.4. -/
def specTransicionPermitida (desde hacia : String) : Bool :=
  (desde == "pendiente" && hacia == "pagado") ||
  (desde == "pagado" && hacia == "enviado") ||
  (desde == "enviado" && hacia == "entregado") ||
  ((desde == "pendiente" || desde == "pagado") && hacia == "cancelado")

/-- Sample product row: id 1, price 10, stock 5, no image. -/
def prodEj : Producto := ⟨1, "cafe", 10, 5, none, 10, 1, true⟩

/-- Sample pending order row, id 1, user 7. -/
def pedidoPendiente : Pedido := ⟨1, 7, 20, "pendiente", "calle 1", "300", none, none, none, none⟩

/-- Sample shipped order row, id 2, user 7. -/
def pedidoEnviado : Pedido := ⟨2, 7, 20, "enviado", "calle 1", "300", none, none, none, none⟩

/-- The row `pedidoEnviado` after `cambiarEstado('pendiente')`. -/
def pedidoEnviadoNuevo : Pedido := { pedidoEnviado with estado := "pendiente" }

/-- Sample order line: order 1 took 2 units of product 1. -/
def detalleEj : DetallePedido := ⟨1, 1, 2, 10⟩

/-- Failure injection that rejects no row update. -/
def sinFallos : Nat → Bool := fun _ => false

/-- Failure injection that rejects the update of row id 101. -/
def falla101 : Nat → Bool := fun i => i == 101

/-- Sample catalog: category 1 with subcategories 10 and 11 and products
100 (in subcategory 10) and 101 (in subcategory 11), all active. -/
def catalogoEj : CatalogState :=
  ⟨[⟨1, "bebidas", true⟩],
   [⟨10, 1, "frias", true⟩, ⟨11, 1, "calientes", true⟩],
   [⟨100, "jugo", 5, 3, none, 10, 1, true⟩, ⟨101, "cafe", 5, 3, none, 11, 1, true⟩]⟩

/-- Sample shop: user 7 has product 1 (2 units at 10) and product 2
(1 unit at 4) in the cart; stocks are 5 and 3. -/
def shopEj : ShopState :=
  ⟨[⟨1, "cafe", 10, 5, none, 10, 1, true⟩, ⟨2, "jugo", 4, 3, none, 10, 1, true⟩],
   [⟨50, 7, 1, 2, 10⟩, ⟨51, 7, 2, 1, 4⟩],
   [], []⟩

/-- Sample operation sequence: pay, attempt delivery, cancel. -/
def opsEj : List PedidoOp :=
  [PedidoOp.cambiar "pagado" 1, PedidoOp.cambiar "entregado" 2,
   PedidoOp.cancelarPedido [] [] 3]

/-! ## Helper lemmas -/

theorem pedidoBeforeUpdate_estado (c : Bool) (n : Nat) (q : Pedido) :
    (pedidoBeforeUpdate c n q).estado = q.estado := by
  simp only [pedidoBeforeUpdate]
  split <;> split <;> split <;> rfl

theorem pedidoBeforeUpdate_fechaEntrega (c : Bool) (n : Nat) (q : Pedido)
    (h : q.estado ≠ "entregado") :
    (pedidoBeforeUpdate c n q).fechaEntrega = q.fechaEntrega := by
  simp only [pedidoBeforeUpdate]
  split <;> split <;> split <;> first | rfl | simp_all

/-! ## Claims about the order state machine -/

/-- Claim C1, counterexample: `cambiarEstado` lets a shipped order go back
to `pendiente` (a transition outside the spec's state machine) and rejects
`entregado` (one of the spec's five known values, and the allowed successor
of `enviado`). -/
theorem cambiarEstado_ignora_maquina_de_estados :
    cambiarEstado 0 pedidoEnviado "pendiente" = Except.ok pedidoEnviadoNuevo ∧
    pedidoEnviadoNuevo.estado = "pendiente" ∧
    specTransicionPermitida "enviado" "pendiente" = false ∧
    cambiarEstado 0 pedidoEnviado "entregado" =
      Except.error "Estado no valido, debe ser pendiente, pagado, enviado o cancelado" ∧
    specTransicionPermitida "enviado" "entregado" = true := by
  decide

/-- Claim C1, amended: `cambiarEstado` succeeds exactly when the new value
is one of the four enum values (never for `entregado`), regardless of the
current status, and then persists exactly that value; otherwise it throws
and persists nothing. -/
theorem cambiarEstado_solo_membresia (p : Pedido) (nuevo : String) (now : Nat) :
    ((cambiarEstado now p nuevo).isOk = estadosValidos.contains nuevo) ∧
    (∀ p', cambiarEstado now p nuevo = Except.ok p' → p'.estado = nuevo) := by
  constructor
  · unfold cambiarEstado
    cases h : estadosValidos.contains nuevo <;> simp [h, Except.isOk, Except.toBool]
  · intro p' hp'
    unfold cambiarEstado at hp'
    split at hp'
    · cases hp'
      rw [pedidoBeforeUpdate_estado]
    · cases hp'

/-- Witness for `cambiarEstado_solo_membresia` at a concrete shipped
order. -/
theorem cambiarEstado_solo_membresia_witness :
    ((cambiarEstado 0 pedidoEnviado "pendiente").isOk =
      estadosValidos.contains "pendiente") ∧
    pedidoEnviadoNuevo.estado = "pendiente" :=
  ⟨(cambiarEstado_solo_membresia pedidoEnviado "pendiente" 0).1,
   (cambiarEstado_solo_membresia pedidoEnviado "pendiente" 0).2 pedidoEnviadoNuevo (by decide)⟩

/-! ## Claims about stock accounting -/

/-- Claim C2: the decrement contract is broken in the source.  The only
stock-decrement path, `aumentarStock` (its doc comment reads "Metodo para
reducir el stock"), called with quantity 10 against stock 5, does not
leave the stock unchanged while rejecting: it persists stock 15 (the
`hayStock` side effect) and then throws. -/
theorem decremento_de_stock_roto :
    prodEj.stock = 5 ∧
    (aumentarStock prodEj 10).2 = Except.error "Stock insuficiente" ∧
    (aumentarStock prodEj 10).1.stock = 15 := by
  decide

/-- Claim C3: `hayStock` is not a pure predicate.  At stock 5 and
requested quantity 10 it mutates the product to stock 15, saves it, and
its returned Promise is truthy although `10 ≤ 5` is false. -/
theorem hayStock_impuro :
    (hayStock prodEj 10).1.stock = 15 ∧
    (hayStock prodEj 10).2 = true ∧
    ¬((10 : Int) ≤ prodEj.stock) := by
  decide

/-- Claim C4: `aumentarStock` never succeeds.  At stock 5 and quantity 3
the persisted stock is indeed 5 + 3, but the call throws
`Stock insuficiente` instead of returning the updated product, because
the truthy Promise returned by `hayStock` is taken as a failure flag. -/
theorem aumentarStock_siempre_lanza :
    (aumentarStock prodEj 3).2 = Except.error "Stock insuficiente" ∧
    (aumentarStock prodEj 3).1.stock = prodEj.stock + 3 := by
  decide

/-- Claim C5: cancelling a pending order with one order line whose product
exists throws `Stock insuficiente` (propagated from `aumentarStock`) and
never reaches the `estado = 'cancelado'` assignment, even though
`puedeSerCancelado` holds; the first product's stock is nevertheless
persisted as 5 + 2. -/
theorem cancelar_pendiente_lanza :
    puedeSerCancelado pedidoPendiente = true ∧
    (cancelar [prodEj] [detalleEj] pedidoPendiente 0).2.2 =
      Except.error "Stock insuficiente" ∧
    (cancelar [prodEj] [detalleEj] pedidoPendiente 0).2.1.estado = "pendiente" ∧
    stockOf (cancelar [prodEj] [detalleEj] pedidoPendiente 0).1 1 = some 7 := by
  decide

/-! ## Claims about the cart -/

/-- Claim C8: `obtenerTotalCarrito` never returns a total.  The `total`
accumulator is never declared, so the first read — the `+=` for a
non-empty cart, the `return` for an empty one — throws `ReferenceError`
for every cart and every user, instead of `Σ(precioUnitario * cantidad)`
or 0. -/
theorem obtenerTotalCarrito_siempre_lanza (carrito : List Carrito) (usuarioId : Nat) :
    obtenerTotalCarrito carrito usuarioId =
      Except.error "ReferenceError: total is not defined" := by
  simp only [obtenerTotalCarrito]
  cases h : carritoDeUsuario carrito usuarioId <;> rfl

/-! ## Claims about product deletion -/

/-- Claim C9: deleting a product never fails because of image cleanup.
For every outcome of the stored-image removal — file present, file
absent, or a file-system error caught inside `deleteFile` — the
`beforeDestroy` hook returns normally and the catalog row is removed;
the primitive is invoked exactly when the product has an image. -/
theorem destroyProducto_nunca_falla (fsError : Bool) (existentes : List String)
    (productos : List Producto) (p : Producto) :
    (destroyProducto fsError existentes productos p).2 =
      Except.ok (productos.filter (fun q => !(q.id == p.id))) ∧
    (destroyProducto fsError existentes productos p).1 = p.imagen.isSome := by
  unfold destroyProducto productoBeforeDestroy
  cases p.imagen <;> simp

theorem cambiarEstado_ok_membresia (now : Nat) (p : Pedido) (nuevo : String) (p' : Pedido)
    (h : cambiarEstado now p nuevo = Except.ok p') :
    estadosValidos.contains p'.estado = true := by
  unfold cambiarEstado at h
  split at h
  · cases h
    rw [pedidoBeforeUpdate_estado]
    assumption
  · cases h

theorem cancelar_estado (productos : List Producto) (detalles : List DetallePedido)
    (p : Pedido) (now : Nat) :
    (cancelar productos detalles p now).2.1.estado = p.estado ∨
    (cancelar productos detalles p now).2.1.estado = "cancelado" := by
  simp only [cancelar]
  split
  · split
    · left; rfl
    · right
      rw [pedidoBeforeUpdate_estado]
  · left; rfl

theorem aplicarOp_preserva (p : Pedido) (op : PedidoOp)
    (h : estadosValidos.contains p.estado = true) :
    estadosValidos.contains (aplicarOp p op).estado = true := by
  cases op with
  | cambiar nuevo now =>
    simp only [aplicarOp]
    cases hc : cambiarEstado now p nuevo with
    | ok p' => exact cambiarEstado_ok_membresia now p nuevo p' hc
    | error e => exact h
  | cancelarPedido ps ds now =>
    show estadosValidos.contains (cancelar ps ds p now).2.1.estado = true
    rcases cancelar_estado ps ds p now with h1 | h1 <;> rw [h1]
    · exact h
    · decide

theorem aplicarOps_preserva (ops : List PedidoOp) (p : Pedido)
    (h : estadosValidos.contains p.estado = true) :
    estadosValidos.contains (aplicarOps p ops).estado = true := by
  induction ops generalizing p with
  | nil => exact h
  | cons op rest ih => exact ih (aplicarOp p op) (aplicarOp_preserva p op h)

/-- Claim C10: the status column only ever holds one of the four enum
values — there is no `entregado` (delivered) value — so no sequence of
`cambiarEstado`/`cancelar` operations ever reaches the delivered state,
and the `beforeUpdate` branch that would stamp `fechaEntrega` can never
fire. -/
theorem pedido_nunca_entregado (p : Pedido) (ops : List PedidoOp)
    (h : estadosValidos.contains p.estado = true) :
    estadosValidos.contains (aplicarOps p ops).estado = true ∧
    (aplicarOps p ops).estado ≠ "entregado" ∧
    (∀ changed now, (pedidoBeforeUpdate changed now (aplicarOps p ops)).fechaEntrega =
      (aplicarOps p ops).fechaEntrega) := by
  have hm := aplicarOps_preserva ops p h
  have hne : (aplicarOps p ops).estado ≠ "entregado" := by
    intro he
    rw [he] at hm
    exact absurd hm (by decide)
  exact ⟨hm, hne, fun c n => pedidoBeforeUpdate_fechaEntrega c n _ hne⟩

/-- Witness for `pedido_nunca_entregado`: a pending order is paid, a
delivery is attempted, and the order is cancelled; `fechaEntrega` is never
stamped. -/
theorem pedido_nunca_entregado_witness :
    estadosValidos.contains (aplicarOps pedidoPendiente opsEj).estado = true ∧
    (pedidoBeforeUpdate true 5 (aplicarOps pedidoPendiente opsEj)).fechaEntrega =
      (aplicarOps pedidoPendiente opsEj).fechaEntrega :=
  ⟨(pedido_nunca_entregado pedidoPendiente opsEj (by decide)).1,
   (pedido_nunca_entregado pedidoPendiente opsEj (by decide)).2.2 true 5⟩

theorem categoriaInactiva_map (catId : Nat) (cs : List Categoria) :
    categoriaInactiva catId
      (cs.map (fun x => if x.id == catId then { x with activo := false } else x)) = true := by
  induction cs with
  | nil => rfl
  | cons c rest ih =>
    simp only [categoriaInactiva, List.map_cons, List.all_cons, Bool.and_eq_true] at ih ⊢
    refine ⟨?_, ih⟩
    cases h : (c.id == catId) <;> simp [h]

theorem cascadaProductos_inactivos (prodFalla : Nat → Bool) (catId : Nat)
    (ps ps' : List Producto)
    (h : cascadaProductosDeCategoria prodFalla catId ps = Except.ok ps') :
    todosProductosInactivos catId ps' = true := by
  induction ps generalizing ps' with
  | nil =>
    cases h
    rfl
  | cons p rest ih =>
    simp only [cascadaProductosDeCategoria] at h
    cases hp : (p.categoriaId == catId) <;> simp only [hp] at h
    · cases hr : cascadaProductosDeCategoria prodFalla catId rest <;> simp only [hr] at h
      · simp at h
      · simp only [Bool.false_eq_true, if_false] at h
        cases h
        have hrec := ih _ hr
        simp only [todosProductosInactivos, List.all_cons, Bool.and_eq_true] at hrec ⊢
        refine ⟨?_, hrec⟩
        simp [hp]
    · cases hf : prodFalla p.id <;> simp only [hf] at h
      · cases hr : cascadaProductosDeCategoria prodFalla catId rest <;> simp only [hr] at h
        · simp at h
        · simp only [if_true] at h
          cases h
          have hrec := ih _ hr
          simp only [todosProductosInactivos, List.all_cons, Bool.and_eq_true] at hrec ⊢
          refine ⟨?_, hrec⟩
          simp [hp]
      · simp at h

theorem subcatUpdate_ok_inactiva (subFalla prodFalla : Nat → Bool) (s : Subcategoria)
    (ps : List Producto) (s' : Subcategoria) (ps' : List Producto)
    (h : subcatUpdateDesactivar subFalla prodFalla s ps = Except.ok (s', ps')) :
    s'.activo = false := by
  unfold subcatUpdateDesactivar at h
  cases hf : subFalla s.id <;> simp only [hf, Bool.false_eq_true, reduceIte] at h
  · cases ha : s.activo <;> simp only [ha, Bool.false_eq_true, reduceIte] at h
    · simp only [Except.ok.injEq, Prod.mk.injEq] at h
      obtain ⟨h1, h2⟩ := h
      rw [← h1]
    · cases hk : hookDesactivarProductosDeSubcat prodFalla s.id ps <;> simp only [hk] at h
      · simp at h
      · simp only [Except.ok.injEq, Prod.mk.injEq] at h
        obtain ⟨h1, h2⟩ := h
        rw [← h1]
  · simp at h

theorem cascadaSubcats_inactivas (subFalla prodFalla : Nat → Bool) (catId : Nat)
    (subs : List Subcategoria) (ps : List Producto) (subs' : List Subcategoria)
    (ps1 : List Producto)
    (h : cascadaSubcategorias subFalla prodFalla catId subs ps = Except.ok (subs', ps1)) :
    todasSubcatsInactivas catId subs' = true := by
  induction subs generalizing ps subs' ps1 with
  | nil =>
    cases h
    rfl
  | cons s rest ih =>
    simp only [cascadaSubcategorias] at h
    cases hs : (s.categoriaId == catId) <;> simp only [hs, Bool.false_eq_true, reduceIte] at h
    · cases hr : cascadaSubcategorias subFalla prodFalla catId rest ps <;> simp only [hr] at h
      · simp at h
      · rename_i r
        simp only [Except.ok.injEq, Prod.mk.injEq] at h
        obtain ⟨h1, h2⟩ := h
        subst h1
        have hrec := ih ps r.1 r.2 (by rw [hr])
        simp only [todasSubcatsInactivas, List.all_cons, Bool.and_eq_true] at hrec ⊢
        refine ⟨?_, hrec⟩
        simp [hs]
    · cases hu : subcatUpdateDesactivar subFalla prodFalla s ps with
      | error e => simp only [hu] at h; simp at h
      | ok u =>
        obtain ⟨s', prods1⟩ := u
        simp only [hu] at h
        cases hrr : cascadaSubcategorias subFalla prodFalla catId rest prods1 <;>
          simp only [hrr] at h
        · simp at h
        · rename_i r
          simp only [Except.ok.injEq, Prod.mk.injEq] at h
          obtain ⟨h1, h2⟩ := h
          subst h1
          have hrec := ih prods1 r.1 r.2 (by rw [hrr])
          simp only [todasSubcatsInactivas, List.all_cons, Bool.and_eq_true] at hrec ⊢
          refine ⟨?_, hrec⟩
          have hsa := subcatUpdate_ok_inactiva subFalla prodFalla s ps s' prods1 hu
          simp [hsa]

/-- Claim C6: `deactivateCategory` on an existing, active category is
all-or-nothing.  When the transaction commits, the category row, every
subcategory of the category, and every product of the category are
inactive; when any single child update is rejected, the rethrown error
aborts the transaction and no row changes. -/
theorem desactivarCategoria_en_cascada (subFalla prodFalla : Nat → Bool)
    (st : CatalogState) (catId : Nat) (c : Categoria)
    (hc : findCategoria st.categorias catId = some c) (hact : c.activo = true) :
    ((desactivarCategoria subFalla prodFalla st catId).2.isOk = true →
      categoriaInactiva catId
        (desactivarCategoria subFalla prodFalla st catId).1.categorias = true ∧
      todasSubcatsInactivas catId
        (desactivarCategoria subFalla prodFalla st catId).1.subcategorias = true ∧
      todosProductosInactivos catId
        (desactivarCategoria subFalla prodFalla st catId).1.productos = true) ∧
    ((desactivarCategoria subFalla prodFalla st catId).2.isOk = false →
      (desactivarCategoria subFalla prodFalla st catId).1 = st) := by
  unfold desactivarCategoria
  cases hb : desactivarCategoriaBody subFalla prodFalla st catId with
  | error e =>
    refine ⟨fun hk => ?_, fun _ => rfl⟩
    simp [Except.isOk, Except.toBool] at hk
  | ok st' =>
    constructor
    · intro _
      unfold desactivarCategoriaBody at hb
      rw [hc] at hb
      simp only [hact, reduceIte] at hb
      cases hcs : cascadaSubcategorias subFalla prodFalla catId st.subcategorias st.productos <;>
        simp only [hcs] at hb
      · simp at hb
      · rename_i u
        obtain ⟨subs', prods1⟩ := u
        cases hcp : cascadaProductosDeCategoria prodFalla catId prods1 <;> simp only [hcp] at hb
        · simp at hb
        · cases hb
          exact ⟨categoriaInactiva_map catId st.categorias,
            cascadaSubcats_inactivas subFalla prodFalla catId st.subcategorias st.productos
              subs' prods1 hcs,
            cascadaProductos_inactivos prodFalla catId prods1 _ hcp⟩
    · intro hk
      simp [Except.isOk, Except.toBool] at hk

/-- Witness for `desactivarCategoria_en_cascada`: deactivating category 1
of the sample catalog with no injected failure marks both subcategories
and both products inactive; injecting a failure on product 101 leaves the
whole catalog untouched. -/
theorem desactivarCategoria_en_cascada_witness :
    categoriaInactiva 1 (desactivarCategoria sinFallos sinFallos catalogoEj 1).1.categorias
      = true ∧
    todasSubcatsInactivas 1
      (desactivarCategoria sinFallos sinFallos catalogoEj 1).1.subcategorias = true ∧
    todosProductosInactivos 1
      (desactivarCategoria sinFallos sinFallos catalogoEj 1).1.productos = true ∧
    (desactivarCategoria sinFallos falla101 catalogoEj 1).1 = catalogoEj := by
  have h1 := (desactivarCategoria_en_cascada sinFallos sinFallos catalogoEj 1
    ⟨1, "bebidas", true⟩ (by decide) rfl).1 (by decide)
  have h2 := (desactivarCategoria_en_cascada sinFallos falla101 catalogoEj 1
    ⟨1, "bebidas", true⟩ (by decide) rfl).2 (by decide)
  exact ⟨h1.1, h1.2.1, h1.2.2, h2⟩

theorem findProducto_save_same (ps : List Producto) (q : Nat) (p p' : Producto)
    (hf : findProducto ps q = some p) (hid : (p'.id == q) = true) :
    findProducto (saveProducto ps q p') q = some p' := by
  induction ps with
  | nil => simp [findProducto] at hf
  | cons a rest ih =>
    simp only [findProducto, saveProducto, List.map_cons] at hf ⊢
    cases ha : (a.id == q)
    · rw [List.find?_cons_of_neg _ (by simp [ha])] at hf
      simp only [ha, Bool.false_eq_true, reduceIte]
      rw [List.find?_cons_of_neg _ (by simp [ha])]
      exact ih hf
    · simp only [ha, reduceIte]
      rw [List.find?_cons_of_pos _ (by simp [hid])]

theorem findProducto_save_other (ps : List Producto) (q pid : Nat) (p' : Producto)
    (hid : (p'.id == q) = true) (hne : (q == pid) = false) :
    findProducto (saveProducto ps q p') pid = findProducto ps pid := by
  induction ps with
  | nil => rfl
  | cons a rest ih =>
    simp only [findProducto, saveProducto, List.map_cons] at ih ⊢
    cases ha : (a.id == q)
    · simp only [ha, Bool.false_eq_true, reduceIte]
      cases hap : (a.id == pid)
      · rw [List.find?_cons_of_neg _ (by simp [hap]), List.find?_cons_of_neg _ (by simp [hap])]
        exact ih
      · rw [List.find?_cons_of_pos _ (by simp [hap]), List.find?_cons_of_pos _ (by simp [hap])]
    · simp only [ha, reduceIte]
      have hp' : (p'.id == pid) = false := by
        have h1 : p'.id = q := by simpa using hid
        rw [h1]
        exact hne
      have haid : (a.id == pid) = false := by
        have h2 : a.id = q := by simpa using ha
        rw [h2]
        exact hne
      rw [List.find?_cons_of_neg _ (by simp [hp']), List.find?_cons_of_neg _ (by simp [haid])]
      exact ih

theorem decrementarTodos_stock (ls : List Carrito) (ps ps' : List Producto)
    (h : decrementarTodos ps ls = Except.ok ps') (pid : Nat) :
    stockOf ps' pid = (stockOf ps pid).map (fun s => s - sumQty ls pid) := by
  induction ls generalizing ps with
  | nil =>
    cases h
    cases hf : findProducto ps' pid <;> simp [stockOf, sumQty, hf]
  | cons l rest ih =>
    simp only [decrementarTodos] at h
    cases hfp : findProducto ps l.productoId <;> simp only [hfp] at h
    · simp at h
    · rename_i p
      cases hds : disminuirStock p l.cantidad <;> simp only [hds] at h
      · simp at h
      · rename_i p1
        have hp1eq : p1 = { p with stock := p.stock - l.cantidad } := by
          unfold disminuirStock at hds
          split at hds
          · cases hds
          · cases hds
            rfl
        have hpid : (p.id == l.productoId) = true := by
          simpa using List.find?_some hfp
        have hp1id : (p1.id == l.productoId) = true := by
          rw [hp1eq]
          simpa using hpid
        have hrec := ih (saveProducto ps l.productoId p1) h
        cases hq : (l.productoId == pid)
        · have hsave : findProducto (saveProducto ps l.productoId p1) pid = findProducto ps pid :=
            findProducto_save_other ps l.productoId pid p1 hp1id hq
          rw [hrec]
          simp only [stockOf, hsave]
          cases hfo : findProducto ps pid <;> simp [sumQty, hq]
        · have hpide : l.productoId = pid := by simpa using hq
          subst hpide
          have hsame : findProducto (saveProducto ps l.productoId p1) l.productoId = some p1 :=
            findProducto_save_same ps l.productoId p p1 hfp hp1id
          rw [hrec]
          simp only [stockOf, hsame, hfp, Option.map_some]
          simp [hp1eq, sumQty, Int.sub_sub]

theorem detallesDePedido_nuevos (nid : Nat) (ls : List Carrito) :
    detallesDePedido
      (ls.map (fun l => DetallePedido.mk nid l.productoId l.cantidad l.precioUnitario)) nid =
      ls.map (fun l => DetallePedido.mk nid l.productoId l.cantidad l.precioUnitario) := by
  simp only [detallesDePedido]
  rw [List.filter_eq_self]
  intro d hd
  simp only [List.mem_map] at hd
  obtain ⟨l, _, rfl⟩ := hd
  simp

theorem detallesDePedido_frescos (detalles : List DetallePedido) (nid : Nat)
    (h : detalles.all (fun d => !(d.pedidoId == nid)) = true) :
    detallesDePedido detalles nid = [] := by
  simp only [detallesDePedido]
  rw [List.filter_eq_nil_iff]
  intro d hd
  have := List.all_eq_true.mp h d hd
  simpa using this

theorem carritoDeUsuario_vaciado (carrito : List Carrito) (uid : Nat) :
    carritoDeUsuario (vaciarCarrito carrito uid) uid = [] := by
  simp only [carritoDeUsuario, vaciarCarrito]
  rw [List.filter_eq_nil_iff]
  intro a ha
  simp only [List.mem_filter] at ha
  simpa using ha.2

/-- Claim C7 (checkout, modelled from the spec): checkout is atomic.  For
a fresh order id, either the transaction commits — the user's cart is
empty afterwards, one order with exactly one order line per cart line is
created in state `pendiente`, and every product's stock drops by the
quantity the cart requested of it — or it fails (in particular with
`EmptyCartError` on an empty cart) and no table changes. -/
theorem checkout_atomico (st : ShopState) (uid nid : Nat) (dir tel : String)
    (notas : Option String)
    (hfresh : st.detalles.all (fun d => !(d.pedidoId == nid)) = true) :
    (carritoDeUsuario st.carrito uid = [] →
      checkout st uid nid dir tel notas = (st, Except.error "EmptyCartError")) ∧
    ((checkout st uid nid dir tel notas).2.isOk = true →
      carritoDeUsuario (checkout st uid nid dir tel notas).1.carrito uid = [] ∧
      (detallesDePedido (checkout st uid nid dir tel notas).1.detalles nid).length =
        (carritoDeUsuario st.carrito uid).length ∧
      (checkout st uid nid dir tel notas).1.pedidos.length = st.pedidos.length + 1 ∧
      ((checkout st uid nid dir tel notas).1.pedidos.head?.map (fun q => q.estado)) =
        some "pendiente" ∧
      (∀ pid, stockOf (checkout st uid nid dir tel notas).1.productos pid =
        (stockOf st.productos pid).map
          (fun s => s - sumQty (carritoDeUsuario st.carrito uid) pid))) ∧
    ((checkout st uid nid dir tel notas).2.isOk = false →
      (checkout st uid nid dir tel notas).1 = st) := by
  unfold checkout
  cases hb : checkoutBody st uid nid dir tel notas with
  | error e =>
    refine ⟨?_, ?_, fun _ => rfl⟩
    · intro hl
      unfold checkoutBody at hb
      rw [hl] at hb
      simp only [List.isEmpty_nil, reduceIte] at hb
      cases hb
      rfl
    · intro hk
      simp [Except.isOk, Except.toBool] at hk
  | ok st' =>
    have hlineas : carritoDeUsuario st.carrito uid ≠ [] := by
      intro hl
      unfold checkoutBody at hb
      rw [hl] at hb
      simp at hb
    refine ⟨fun hl => absurd hl hlineas, ?_, ?_⟩
    · intro _
      unfold checkoutBody at hb
      have hne : (carritoDeUsuario st.carrito uid).isEmpty = false := by
        cases hcc : carritoDeUsuario st.carrito uid with
        | nil => exact absurd hcc hlineas
        | cons a t => rfl
      simp only [hne, Bool.false_eq_true, reduceIte] at hb
      cases hd : decrementarTodos st.productos (carritoDeUsuario st.carrito uid) <;>
        simp only [hd] at hb
      · simp at hb
      · rename_i ps'
        cases hb
        refine ⟨carritoDeUsuario_vaciado st.carrito uid, ?_, rfl, rfl,
          fun pid => decrementarTodos_stock _ _ _ hd pid⟩
        show (detallesDePedido
          ((carritoDeUsuario st.carrito uid).map
            (fun l => DetallePedido.mk nid l.productoId l.cantidad l.precioUnitario) ++
            st.detalles) nid).length = (carritoDeUsuario st.carrito uid).length
        simp only [detallesDePedido, List.filter_append]
        rw [← detallesDePedido, ← detallesDePedido, detallesDePedido_nuevos,
          detallesDePedido_frescos st.detalles nid hfresh]
        simp
    · intro hk
      simp [Except.isOk, Except.toBool] at hk

/-- Witness for `checkout_atomico`: user 7 checks the sample cart out; the
cart empties, order 42 gets two lines, and product 1 drops from stock 5
to 3. -/
theorem checkout_atomico_witness :
    carritoDeUsuario (checkout shopEj 7 42 "calle 1" "300" none).1.carrito 7 = [] ∧
    (detallesDePedido (checkout shopEj 7 42 "calle 1" "300" none).1.detalles 42).length = 2 ∧
    stockOf (checkout shopEj 7 42 "calle 1" "300" none).1.productos 1 = some 3 := by
  have h := (checkout_atomico shopEj 7 42 "calle 1" "300" none (by decide)).2.1 (by decide)
  refine ⟨h.1, ?_, ?_⟩
  · rw [h.2.1]
    decide
  · rw [h.2.2.2.2 1]
    decide

